import Mathlib

/-!
Verification development for the Epiclock repository (two Python CLI scripts:
`s00005_geo_inspector.py` and `s00007_extract_annotation.py`).

The definitions below are a shallow embedding of the Python code: pure helpers
become Lean functions; filesystem and network effects become explicit state
(association lists of files, `Except` for raised exceptions, a Bool flag for
"a network request was performed"); Python floats are modelled as rationals.
-/

namespace Epiclock

/-! ### Duration formatting (`format_duration`, identical in both scripts)

The Python code is `str(timedelta(seconds=round(seconds)))`.  The builtin
`round` of Python rounds half to even; `str` of a `timedelta` prints `H:MM:SS` for
durations under one day and otherwise a `"N day(s), "` label followed by the
remainder as `H:MM:SS`. -/

/-- Zero-pad a natural number to two digits, as in a `MM`/`SS` field. -/
def pad2 (n : ℕ) : String :=
  if n < 10 then "0" ++ toString n else toString n

/-- Model of the builtin Python `round` on a rational: nearest integer, ties to even. -/
def pyRound (q : ℚ) : ℤ :=
  let f : ℤ := ⌊q⌋
  if q - f < 1/2 then f
  else if 1/2 < q - f then f + 1
  else if f % 2 = 0 then f else f + 1

/-- Model of `str(datetime.timedelta(seconds=n))` for a non-negative whole number of
seconds `n`: hours unpadded, minutes and seconds two-padded; for a day or
more, a `"N day(s), "` label precedes the remainder-of-day part. -/
def timedeltaStr (n : ℕ) : String :=
  let days := n / 86400
  let rem := n % 86400
  let core := toString (rem / 3600) ++ ":" ++ pad2 (rem % 3600 / 60) ++ ":" ++ pad2 (rem % 60)
  if days = 0 then core
  else if days = 1 then "1 day, " ++ core
  else toString days ++ " days, " ++ core

/-- Model of `format_duration(seconds)` from both scripts:
`str(timedelta(seconds=round(seconds)))`.  Modelled for the non-negative
durations the scripts measure (elapsed wall-clock times). -/
def format_duration (seconds : ℚ) : String :=
  timedeltaStr (pyRound seconds).toNat

/-- Modelled from the spec: the rounded whole-second duration `n` rendered as
`H:MM:SS` (hours unpadded, minutes and seconds two-padded), with no day label
for any size of `n`. -/
def hmmssOfSpec (n : ℕ) : String :=
  toString (n / 3600) ++ ":" ++ pad2 (n % 3600 / 60) ++ ":" ++ pad2 (n % 60)

/-! ### SystemMonitor (identical in both scripts) -/

/-- One point-in-time reading of system counters, as assembled by
`SystemMonitor.snapshot` (CPU percent from psutil, memory and disk in bytes). -/
structure Snapshot where
  cpu_percent : ℚ
  mem_used : ℚ
  mem_total : ℚ
  disk_used : ℚ
  disk_total : ℚ

/-- The dictionary returned by `SystemMonitor.delta`. -/
structure SnapshotDelta where
  rss_delta : ℚ
  disk_delta : ℚ
  cpu_after : ℚ

/-- Model of `SystemMonitor.delta(before, after)`: byte differences divided by `1024**2`
(MB), and the CPU percentage of the after snapshot. -/
def SystemMonitor.delta (before after : Snapshot) : SnapshotDelta :=
  { rss_delta := (after.mem_used - before.mem_used) / 1024 ^ 2
    disk_delta := (after.disk_used - before.disk_used) / 1024 ^ 2
    cpu_after := after.cpu_percent }

/-! ### StepTimer (identical in both scripts)

`__exit__` receives the pending exception (if any); it always recomputes the
elapsed duration, logs a failure marker and returns `False` when an exception
is pending, and otherwise logs the resource delta and a completion line
(falling off the end, i.e. returning `None`).  Both return values are falsy,
so an exception raised by the work is never suppressed. -/

/-- Python `"%+.2f"`-style rendering of a rational: explicit sign and two
decimal places (half-to-even at the second decimal; the exact tie behaviour
of binary floats, and the `"-0.00"` signed-zero case, are immaterial here). -/
def fmtSigned2 (q : ℚ) : String :=
  let n : ℤ := pyRound (q * 100)
  (if n < 0 then "-" else "+")
    ++ toString (n.natAbs / 100) ++ "." ++ pad2 (n.natAbs % 100)

/-- Python `"%.0f"`-style rendering of a rational. -/
def fmt0 (q : ℚ) : String := toString (pyRound q)

/-- The resource-delta log line emitted by `StepTimer.__exit__` on the
no-exception path. -/
def rssLine (d : SnapshotDelta) : String :=
  "🔢 RSS Δ: " ++ fmtSigned2 d.rss_delta ++ " MB | 💽 Disk Δ: "
    ++ fmtSigned2 d.disk_delta ++ " MB | ⚙️ CPU: " ++ fmt0 d.cpu_after ++ "%"

/-- Model of `StepTimer.__exit__`: given the step title, the formatted elapsed
duration `dt`, the resource delta of the step and the pending exception (if
any), returns the log lines it emits and its return value (`False`/`None`
both modelled as `false`: the exception is not suppressed). -/
def stepTimerExit (title dt : String) (d : SnapshotDelta) (exc : Option String) :
    List String × Bool :=
  if exc.isSome then
    (["❌ FAIL: " ++ title ++ " (duration " ++ dt ++ ")"], false)
  else
    ([rssLine d, "✅ DONE: " ++ title ++ " in " ++ dt], false)

/-- A `with StepTimer(title, ...)` block around a unit of work.  The work
either produces a value or raises; per the Python context-manager protocol the
exception propagates unless `__exit__` returns truthy (in which case the
block would fall through with no value, hence the `Option` in the result). -/
def runStepTimer {α : Type} (title dt : String) (d : SnapshotDelta)
    (work : Except String α) : Except String (Option α) × List String :=
  match work with
  | .error e =>
    let r := stepTimerExit title dt d (some e)
    ((if r.2 then .ok none else .error e), r.1)
  | .ok a =>
    let r := stepTimerExit title dt d none
    (.ok (some a), r.1)

/-! ### Character-level string helpers

Lean core string functions such as `String.splitOn` are opaque to kernel
reduction, so the Python string operations the scripts use (`split`, `strip`,
`lower`, `in`, `startswith`, `endswith`) are modelled by structurally
recursive functions over `List Char`.  `Char.toLower` lower-cases ASCII
letters, which matches Python `str.lower` on the ASCII metadata these scripts
process. -/

/-- Split a character list at the FIRST occurrence of `c`: the part before,
and (when `c` occurs) the part after.  Models Python `s.split(c, 1)`. -/
def breakAtChar (c : Char) : List Char → List Char × Option (List Char)
  | [] => ([], none)
  | a :: as =>
    if a = c then ([], some as)
    else
      let r := breakAtChar c as
      (a :: r.1, r.2)

/-- Python `c in s` for a single character `c`. -/
def containsChar (s : String) (c : Char) : Bool :=
  s.data.contains c

/-- Drop leading and trailing whitespace from a character list. -/
def trimChars (l : List Char) : List Char :=
  ((l.dropWhile Char.isWhitespace).reverse.dropWhile Char.isWhitespace).reverse

/-- Python `s.strip()`. -/
def pyStrip (s : String) : String := String.mk (trimChars s.data)

/-- Python `s.lower()` (ASCII). -/
def pyLower (s : String) : String := String.mk (s.data.map Char.toLower)

/-- Predicate `listStarts p l` : the list `p` begins the list `l`. -/
def listStarts : List Char → List Char → Bool
  | [], _ => true
  | _ :: _, [] => false
  | a :: as, b :: bs => a = b && listStarts as bs

/-- Python `s.startswith(p)`. -/
def strStarts (s p : String) : Bool := listStarts p.data s.data

/-- Python `s.endswith(p)`. -/
def strEnds (s p : String) : Bool := listStarts p.data.reverse s.data.reverse

/-- Split a character list at every occurrence of `c` (Python `s.split(c)`). -/
def splitChar (c : Char) : List Char → List (List Char)
  | [] => [[]]
  | a :: as =>
    match splitChar c as with
    | [] => [[]]
    | g :: gs => if a = c then [] :: g :: gs else (a :: g) :: gs

/-- Longest common leading run of two character lists; models
`os.path.commonprefix` applied to a two-element list. -/
def commonLead : List Char → List Char → List Char
  | a :: as, b :: bs => if a = b then a :: commonLead as bs else []
  | _, _ => []

/-- Join character-list path components with `/`. -/
def intercalSlash : List (List Char) → List Char
  | [] => []
  | [g] => g
  | g :: gs => g ++ '/' :: intercalSlash gs

/-! ### Phenotype summarization (`GeoDatasetFetcher.summarize_phenotypes`)

A GSM sample is its metadata dictionary (field name to list of strings); a
row of the exported table is a Python dict, modelled as an insertion-ordered
association list where re-assigning an existing key updates it in place. -/

/-- A GSM sub-record: its `metadata` dictionary. -/
structure Gsm where
  metadata : List (String × List String)
deriving DecidableEq

/-- An output row: an insertion-ordered dictionary. -/
abbrev Row := List (String × String)

/-- Python `dict` assignment `record[k] = v`: update in place if `k` is
already a key, else append the new pair at the end. -/
def dictInsert (record : Row) (k v : String) : Row :=
  if record.any (fun p => p.1 = k) then
    record.map (fun p => if p.1 = k then (k, v) else p)
  else record ++ [(k, v)]

/-- Dictionary lookup on a row. -/
def lookupRow (k : String) (record : Row) : Option String :=
  (record.find? (fun p => p.1 = k)).map (fun p => p.2)

/-- The key produced from one `"key: value"` entry:
`item.split(":", 1)[0].strip().lower()`. -/
def normKey (item : String) : String :=
  pyLower (pyStrip (String.mk (breakAtChar ':' item.data).1))

/-- The value produced from one `"key: value"` entry:
`item.split(":", 1)[1].strip()`. -/
def normVal (item : String) : String :=
  pyStrip (String.mk ((breakAtChar ':' item.data).2.getD []))

/-- One iteration of the inner loop of `summarize_phenotypes`: an entry with
a colon is split at the first colon and assigned into the row; an entry
without a colon is skipped. -/
def parsePhenoItem (record : Row) (item : String) : Row :=
  if containsChar item ':' then dictInsert record (normKey item) (normVal item)
  else record

/-- The row built for one sample: starts as `{"sample_id": sample_id}`; the
designated metadata field, when present and non-empty (Python `if meta:`),
contributes its parsed entries. -/
def buildPhenoRow (sample_id : String) (meta : Option (List String)) : Row :=
  match meta with
  | some items =>
    if items.isEmpty then [("sample_id", sample_id)]
    else items.foldl parsePhenoItem [("sample_id", sample_id)]
  | none => [("sample_id", sample_id)]

/-- Model of `GeoDatasetFetcher.summarize_phenotypes` applied to `gse.gsms` (sample id
to GSM, in dictionary order) and a field name: returns the raw `values` list
(whose multiset of occurrences is the `Counter` frequency tally) and the list
of exported rows, one per sample. -/
def summarize_phenotypes (gsms : List (String × Gsm)) (field : String) :
    List String × List Row :=
  let values := gsms.flatMap (fun sg =>
    match (sg.2.metadata.find? (fun p => p.1 = field)).map (fun p => p.2) with
    | some items => if items.isEmpty then [] else items
    | none => [])
  let rows := gsms.map (fun sg =>
    buildPhenoRow sg.1 ((sg.2.metadata.find? (fun p => p.1 = field)).map (fun p => p.2)))
  (values, rows)

/-! ### Filesystem and download caching

Both cached downloads live in a single directory; the directory is modelled
as an insertion-ordered association list from file name to file content
(bytes), so `os.listdir` is the list of keys in order.  `os.path.exists` is
key membership and `os.path.getsize` is content length. -/

/-- A directory: file name to content bytes, in creation order. -/
abbrev FS := List (String × List ℕ)

/-- Model of `os.path.exists` + content access for one name. -/
def fsLookup (fs : FS) (name : String) : Option (List ℕ) :=
  (fs.find? (fun p => p.1 = name)).map (fun p => p.2)

/-- Model of `open(name, "wb").write(body)`: replace the content if the file exists,
else create it at the end of the directory listing. -/
def fsWrite (fs : FS) (name : String) (body : List ℕ) : FS :=
  if (fs.find? (fun p => p.1 = name)).isSome then
    fs.map (fun p => if p.1 = name then (name, body) else p)
  else fs ++ [(name, body)]

/-- Model of `shutil.move(src, dst)` within the directory. -/
def fsMove (fs : FS) (src dst : String) : FS :=
  fsWrite (fs.filter (fun p => p.1 ≠ src)) dst ((fsLookup fs src).getD [])

/-- Model of `AnnotationInspector._download_if_needed(url, out_path, timeout)` over the
directory `fs`.  `resp` is the outcome of `requests.get` followed by
`raise_for_status` (an HTTP error raises; success yields the body bytes).
Result: the directory afterwards and whether a network request was made. -/
def download_if_needed (fs : FS) (out_path : String)
    (resp : Except String (List ℕ)) : Except String (FS × Bool) :=
  match fsLookup fs out_path with
  | some c =>
    if c.length > 0 then .ok (fs, false)
    else
      match resp with
      | .error e => .error e
      | .ok body => .ok (fsWrite fs out_path body, true)
  | none =>
    match resp with
    | .error e => .error e
    | .ok body => .ok (fsWrite fs out_path body, true)

/-- The fetch-and-rename arm of `download_soft`: `fetched` is the outcome of
`GEOparse.get_GEO(geo=..., destdir=..., how="full")` (on success, the state
of the data directory after the provider wrote its files); afterwards,
then rename the first listed `<geo_id>*.soft.gz` file (the loop breaks after
one match) to the canonical name. -/
def downloadSoftFetch (geo_id soft_name : String) (fetched : Except String FS) :
    Except String (FS × Bool) :=
  match fetched with
  | .error e => .error e
  | .ok fs1 =>
    let fs2 :=
      match fs1.find? (fun p => strStarts p.1 geo_id && strEnds p.1 ".soft.gz") with
      | some p => if p.1 = soft_name then fs1 else fsMove fs1 p.1 soft_name
      | none => fs1
    .ok (fs2, true)

/-- Model of `GeoDatasetFetcher.download_soft` over the data directory `fs`:
short-circuit when the canonical file exists with positive size, else fetch
and rename. -/
def download_soft (fs : FS) (geo_id soft_name : String)
    (fetched : Except String FS) : Except String (FS × Bool) :=
  match fsLookup fs soft_name with
  | some c =>
    if c.length > 0 then .ok (fs, false)
    else downloadSoftFetch geo_id soft_name fetched
  | none => downloadSoftFetch geo_id soft_name fetched

/-! ### GSE parsing and cache verification (`GeoDatasetFetcher`)

A value deserialized from the cache file may be an arbitrary object, so its
`gsms` and `metadata` attributes are `Option`s (a missing attribute raises
`AttributeError` on access, and makes `hasattr` return `False`).  Exceptions
raised by library calls are `Except.error`. -/

/-- An object in the role of a parsed GSE (or anything loaded from cache). -/
structure GseObj where
  gsms : Option (List (String × Gsm))
  metadata : Option (List (String × List String))
deriving DecidableEq

/-- A Python exception from GEOparse: `ValueError` is caught by the fallback
in `load_or_parse_gse`; anything else propagates. -/
inductive PyErr
  | valueError (msg : String)
  | otherError (msg : String)
deriving DecidableEq

/-- The outcomes of the external calls `load_or_parse_gse` makes:
`joblib.load` on the cache path, `GEOparse.get_GEO(filepath=friendly_path)`,
and `GEOparse.get_GEO(filepath=soft_path, GEO=geo_id)`. -/
structure ParseEnv where
  cacheLoad : Except String GseObj
  byFilename : Except PyErr GseObj
  byExplicit : Except PyErr GseObj

/-- The `try` block of `load_or_parse_gse`: `joblib.load` then
`assert hasattr(gse, "gsms") and len(gse.gsms) > 0`.  A load exception or a
failed assertion is an error (to be caught by the `except`). -/
def loadCachedGse (load : Except String GseObj) : Except String GseObj :=
  match load with
  | .error e => .error e
  | .ok gse =>
    match gse.gsms with
    | some l => if 0 < l.length then .ok gse else .error "AssertionError"
    | none => .error "AssertionError"

/-- The parse phase of `load_or_parse_gse` (after a cache miss): parse by the
GEOparse-friendly filename; if that raises `ValueError`, fall back to the
explicit-`GEO`-parameter call.  (The `shutil.copy` that creates the friendly
file and the `joblib.dump` re-caching are filesystem effects with no bearing
on the returned object.) -/
def parseGseFromSoft (env : ParseEnv) : Except PyErr GseObj :=
  match env.byFilename with
  | .ok gse => .ok gse
  | .error (.valueError _) => env.byExplicit
  | .error e => .error e

/-- Model of `GeoDatasetFetcher.load_or_parse_gse`: any failure of the cached-load
`try` block falls through to the parse phase. -/
def load_or_parse_gse (env : ParseEnv) : Except PyErr GseObj :=
  match loadCachedGse env.cacheLoad with
  | .ok gse => .ok gse
  | .error _ => parseGseFromSoft env

/-- The `try` block of `verify_gse_object` after the existence check:
`joblib.load`, then three log lines that touch `gse.gsms` and
`gse.metadata`.  Returns the log lines emitted before any exception,
and the exception if one was raised. -/
def verifyLoadedBody (load : Except String GseObj) : List String × Option String :=
  match load with
  | .error e => ([], some e)
  | .ok gse =>
    match gse.gsms with
    | none => (["✅ GSE object loaded."], some "AttributeError")
    | some g =>
      match gse.metadata with
      | none =>
        (["✅ GSE object loaded.", "🔢 Samples loaded: " ++ toString g.length],
         some "AttributeError")
      | some m =>
        (["✅ GSE object loaded.", "🔢 Samples loaded: " ++ toString g.length,
          "📑 Metadata keys: " ++ toString ((m.map (fun p => p.1)).take 5)],
         none)

/-- Model of `GeoDatasetFetcher.verify_gse_object`.  Here `cache` is the state of the cache
file: `none` when the file does not exist, otherwise the outcome of loading
it.  The result type allows an escaping exception (`Except.error`), but every
failure of the `try` body is routed to the log line of the `except` clause. -/
def verify_gse_object (gsePath : String) (cache : Option (Except String GseObj)) :
    Except String (List String) :=
  .ok (["🔍 Final verification of parsed GSE object"] ++
    (match cache with
     | none => ["❌ Parsed GSE object not found."]
     | some load =>
       let r := verifyLoadedBody load
       ("✅ File exists: " ++ gsePath) :: r.1 ++
         (match r.2 with
          | some e => ["❌ Failed to load GSE object: " ++ e]
          | none => [])) ++
    ["✅ Dataset inspection complete."])

/-! ### Safe tar extraction (`AnnotationInspector._safe_extract`)

POSIX path semantics: `os.path.join(a, b)` returns `b` when `b` is absolute,
else concatenates with a separator; `os.path.abspath(p)` joins a relative `p`
onto the working directory and normalizes `.`, `..` and repeated separators
(the POSIX double-leading-slash special case does not arise here and is not
modelled).  `os.path.commonprefix` is a CHARACTER-level common prefix. -/

/-- Model of `os.path.join(a, b)` (POSIX, two arguments). -/
def osJoin (a b : String) : String :=
  if strStarts b "/" then b
  else if a = "" ∨ strEnds a "/" then a ++ b
  else a ++ "/" ++ b

/-- Normalize the `/`-separated components of an absolute path: drop empty
and `.` components and resolve `..` against the previous component (at the
root, `..` is dropped). -/
def normComps (parts : List (List Char)) : List (List Char) :=
  parts.foldl
    (fun acc comp =>
      if comp = [] ∨ comp = ['.'] then acc
      else if comp = ['.', '.'] then acc.dropLast
      else acc ++ [comp])
    []

/-- The normalized component list of `os.path.abspath(p)` under working
directory `cwd` (an absolute path). -/
def absComps (cwd p : String) : List (List Char) :=
  if strStarts p "/" then normComps (splitChar '/' p.data)
  else normComps (splitChar '/' (osJoin cwd p).data)

/-- Model of `os.path.abspath(p)` under working directory `cwd`. -/
def abspathStr (cwd p : String) : String :=
  "/" ++ String.mk (intercalSlash (absComps cwd p))

/-- The inner `is_within_directory(directory, target)` of `_safe_extract`:
`os.path.commonprefix([abspath(directory), abspath(target)]) == abspath(directory)`. -/
def is_within_directory (cwd directory target : String) : Bool :=
  let abs_directory := abspathStr cwd directory
  let abs_target := abspathStr cwd target
  String.mk (commonLead abs_directory.data abs_target.data) = abs_directory

/-- Model of `AnnotationInspector._safe_extract(tar_path, extract_dir)` on an archive
whose member names are `members`: every member is checked first, and the
whole archive is extracted only if no check fails (the loop raises at the
first failing member, before anything is extracted). -/
def safe_extract (cwd : String) (members : List String) (extract_dir : String) :
    Except String (List String) :=
  match members.find? (fun m => ! is_within_directory cwd extract_dir (osJoin extract_dir m)) with
  | some _ => .error "Potential path traversal detected in tar file"
  | none => .ok members

/-- Predicate `leadsList p l` : the list `p` is a leading run of the list `l`. -/
def leadsList : List (List Char) → List (List Char) → Bool
  | [], _ => true
  | _ :: _, [] => false
  | a :: as, b :: bs => a = b && leadsList as bs

/-- Modelled from the spec: the target path, joined to the destination and
resolved to an absolute path, lies WITHIN the destination directory — the
resolved path of the destination, read as a directory, is a path-component
prefix of the resolved path of the target. -/
def withinDirSpec (cwd directory target : String) : Bool :=
  leadsList (absComps cwd directory) (absComps cwd target)

/-! ### Annotation frame merging (`AnnotationInspector._merge_annotation_frames`)

pandas data frames are Python heap objects: `df.copy()` allocates a fresh
object and `df.index = ...` mutates in place.  The heap is a list of frames
addressed by position; the function receives the addresses of its two
argument frames. -/

/-- A value in a frame cell or index label. -/
inductive PVal
  | pstr (s : String)
  | pint (n : ℤ)
deriving DecidableEq

/-- Python `str(...)` of an index label, as applied by `.astype(str)`. -/
def PVal.toStr : PVal → String
  | .pstr s => s
  | .pint n => toString n

/-- A pandas data frame: row index labels plus named columns (each column
listing its cell values by row position). -/
structure DataFrame where
  index : List PVal
  cols : List (String × List PVal)
deriving DecidableEq

/-- The Python heap of frame objects, addressed by position. -/
abbrev Heap := List DataFrame

/-- Dereference a frame address. -/
def heapGet (h : Heap) (i : ℕ) : DataFrame :=
  h.getD i ⟨[], []⟩

/-- Model of `df.copy()`: allocate a fresh frame equal to the one at `i`; returns the
new heap and the fresh address. -/
def dfCopy (h : Heap) (i : ℕ) : Heap × ℕ :=
  (h ++ [heapGet h i], h.length)

/-- Model of `df.index = df.index.astype(str)`: in-place index coercion of the frame
at address `i`. -/
def setIndexStr (h : Heap) (i : ℕ) : Heap :=
  h.set i { heapGet h i with index := (heapGet h i).index.map (fun v => .pstr v.toStr) }

/-- Model of `ldf.join(rdf, how="inner")`: keep the left rows whose index label occurs
in the right index (in left order), pairing each with the first matching
right row; columns are the left columns followed by the right columns. -/
def dfJoinInner (ldf rdf : DataFrame) : DataFrame :=
  let lpos := (List.range ldf.index.length).filter
    (fun p => rdf.index.contains (ldf.index.getD p (.pstr "")))
  let rpos := fun p => rdf.index.findIdx (fun v => v = ldf.index.getD p (.pstr ""))
  { index := lpos.map (fun p => ldf.index.getD p (.pstr ""))
    cols := ldf.cols.map (fun c => (c.1, lpos.map (fun p => c.2.getD p (.pstr ""))))
      ++ rdf.cols.map (fun c => (c.1, lpos.map (fun p => c.2.getD (rpos p) (.pstr "")))) }

/-- Model of `merged.reset_index().rename(columns=...)` with `index` mapped to `CpG`: the index
becomes a leading column named `CpG` and the new index is the row range. -/
def resetIndexRenameCpG (df : DataFrame) : DataFrame :=
  { index := (List.range df.index.length).map (fun n => .pint n)
    cols := ("CpG", df.index) :: df.cols }

/-- Model of `AnnotationInspector._merge_annotation_frames(locations_df, other_df)`
over the heap: copy each argument frame, coerce the indices of the COPIES to
string in place, inner-join the copies, reset and rename the index, and
allocate the merged result.  Returns the final heap and the address of the
merged frame. -/
def merge_annotation_frames (h : Heap) (locId otherId : ℕ) : Heap × ℕ :=
  let c1 := dfCopy h locId
  let c2 := dfCopy c1.1 otherId
  let h3 := setIndexStr c2.1 c1.2
  let h4 := setIndexStr h3 c2.2
  let merged := resetIndexRenameCpG (dfJoinInner (heapGet h4 c1.2) (heapGet h4 c2.2))
  (h4 ++ [merged], h4.length)

/-! ## Helper lemmas -/

/-- Rounding a whole number of seconds is the identity. -/
theorem pyRound_natCast (n : ℕ) : pyRound (n : ℚ) = n := by
  unfold pyRound
  simp [Int.floor_natCast]

/-- On a whole number of seconds, `format_duration` is the timedelta
rendering of that number. -/
theorem format_duration_natCast (n : ℕ) : format_duration (n : ℚ) = timedeltaStr n := by
  unfold format_duration
  rw [pyRound_natCast]
  simp

/-- Address `i` of the heap survives the merge untouched whenever it is an
address that existed before the call (the copies and the merged frame are
fresh allocations, and the in-place index coercions hit only the copies). -/
theorem mergeFrames_pres (h : Heap) (locId otherId i : ℕ) (hi : i < h.length) :
    (merge_annotation_frames h locId otherId).1[i]? = h[i]? := by
  simp only [merge_annotation_frames, dfCopy, setIndexStr]
  rw [List.getElem?_append]
  rw [if_pos (by simp only [List.length_set, List.length_append]; omega)]
  rw [List.getElem?_set_ne (by simp only [List.length_append]; omega)]
  rw [List.getElem?_set_ne (by omega)]
  rw [List.getElem?_append]
  rw [if_pos (by simp only [List.length_append]; omega)]
  rw [List.getElem?_append]
  rw [if_pos hi]

/-! ## Claim theorems -/

/-- C1: the claim states that `_safe_extract` raises whenever some entry,
joined to the destination and resolved, lies outside the destination
directory.  The code checks this with `os.path.commonprefix`, a
CHARACTER-level prefix: on destination `/data/foo`, the entry
`../foobar/x` resolves to `/data/foobar/x`, which is OUTSIDE the
destination yet shares it as a string prefix, so the guard accepts it and
the archive is extracted — a path traversal the guard was written to stop
(its own error message is "Potential path traversal detected in tar file").
The spec example `../../evil` is rejected, since `/evil` does not extend
the string `/data/foo`. -/
theorem c1_safe_extract_guard_misses_sibling_escape :
    safe_extract "/" ["../foobar/x"] "/data/foo" = .ok ["../foobar/x"] ∧
    withinDirSpec "/" "/data/foo" (osJoin "/data/foo" "../foobar/x") = false ∧
    abspathStr "/" (osJoin "/data/foo" "../foobar/x") = "/data/foobar/x" ∧
    safe_extract "/" ["../../evil"] "/data/foo" =
      .error "Potential path traversal detected in tar file" :=
  ⟨rfl, by decide, by decide, rfl⟩

/-- C2: when the target cache file exists with size strictly greater than 0,
both `_download_if_needed` and `download_soft` return at once: no network
request happens (the `false` flag) and the directory — in particular the
content of the cached file, which is never inspected beyond its size — is
returned unchanged, for ANY cached content. -/
theorem c2_nonempty_cache_short_circuits_download
    (fs : FS) (out geo soft : String) (resp : Except String (List ℕ))
    (fetched : Except String FS) (ca cb : List ℕ)
    (h1 : fsLookup fs out = some ca) (h2 : ca.length > 0)
    (h3 : fsLookup fs soft = some cb) (h4 : cb.length > 0) :
    download_if_needed fs out resp = .ok (fs, false) ∧
    download_soft fs geo soft fetched = .ok (fs, false) := by
  constructor
  · unfold download_if_needed
    rw [h1]
    simp [h2]
  · unfold download_soft
    rw [h3]
    simp [h4]

/-- Witness for C2 at a concrete one-byte cached file. -/
theorem c2_nonempty_cache_short_circuits_download_witness :
    fsLookup [("f.soft.gz", [7])] "f.soft.gz" = some [7] ∧
    (0:ℕ) < [7].length ∧
    download_if_needed [("f.soft.gz", [7])] "f.soft.gz" (.error "net") =
      .ok ([("f.soft.gz", [7])], false) ∧
    download_soft [("f.soft.gz", [7])] "GSE1" "f.soft.gz" (.error "net") =
      .ok ([("f.soft.gz", [7])], false) := by
  refine ⟨by decide, by decide, ?_, ?_⟩
  · exact (c2_nonempty_cache_short_circuits_download _ _ "GSE1" "f.soft.gz" _ (.error "net")
      [7] [7] (by decide) (by decide) (by decide) (by decide)).1
  · exact (c2_nonempty_cache_short_circuits_download _ "f.soft.gz" _ _ (.error "net") _
      [7] [7] (by decide) (by decide) (by decide) (by decide)).2

/-- C3: a sample whose designated metadata field is
`["age: 45", "sex: female"]` exports the row
`{sample_id, age: "45", sex: "female"}` — each entry split at its first
colon, key stripped and lower-cased, value stripped; an entry without a
colon leaves the row untouched (`parsePhenoItem` is the identity on it) but
still lands verbatim in the raw frequency-tally list. -/
theorem c3_phenotype_row_parsing (sid field : String) :
    summarize_phenotypes [(sid, ⟨[(field, ["age: 45", "sex: female"])]⟩)] field =
      (["age: 45", "sex: female"],
       [[("sample_id", sid), ("age", "45"), ("sex", "female")]]) ∧
    (∀ record item, containsChar item ':' = false → parsePhenoItem record item = record) ∧
    (∀ sid2 items, items ≠ [] →
      (summarize_phenotypes [(sid2, ⟨[(field, items)]⟩)] field).1 = items) := by
  refine ⟨?_, ?_, ?_⟩
  · have hc1 : containsChar "age: 45" ':' = true := by decide
    have hc2 : containsChar "sex: female" ':' = true := by decide
    have hk1 : normKey "age: 45" = "age" := by decide
    have hv1 : normVal "age: 45" = "45" := by decide
    have hk2 : normKey "sex: female" = "sex" := by decide
    have hv2 : normVal "sex: female" = "female" := by decide
    simp [summarize_phenotypes, buildPhenoRow, parsePhenoItem, hc1, hc2, hk1, hv1, hk2, hv2,
      dictInsert]
  · intro record item h
    simp [parsePhenoItem, h]
  · intro sid2 items hne
    cases items with
    | nil => exact absurd rfl hne
    | cons a as => simp [summarize_phenotypes]

/-- Witness for C3 at concrete inputs, including a colon-free entry. -/
theorem c3_phenotype_row_parsing_witness :
    containsChar "plain" ':' = false ∧
    parsePhenoItem [("sample_id", "GSM1")] "plain" = [("sample_id", "GSM1")] ∧
    (["x: 1", "plain"] : List String) ≠ [] ∧
    (summarize_phenotypes [("GSM2", ⟨[("characteristics_ch1", ["x: 1", "plain"])]⟩)]
        "characteristics_ch1").1 = ["x: 1", "plain"] := by
  refine ⟨by decide, ?_, by decide, ?_⟩
  · exact (c3_phenotype_row_parsing "GSM1" "characteristics_ch1").2.1
      [("sample_id", "GSM1")] "plain" (by decide)
  · exact (c3_phenotype_row_parsing "GSM1" "characteristics_ch1").2.2
      "GSM2" ["x: 1", "plain"] (by decide)

/-- C4: a `with StepTimer(...)` block around failing work logs exactly the
failure marker — which carries the step title and the formatted elapsed
duration — and propagates the original exception unchanged, because
`__exit__` returns a falsy value (so nothing is suppressed and nothing is
retried); around succeeding work no exception is raised and the resource
delta line and the completion line (with the duration) are logged. -/
theorem c4_step_timer_exit_logs_and_reraises (α : Type) (title dt : String)
    (d : SnapshotDelta) :
    (∀ e : String,
      runStepTimer title dt d (.error e : Except String α) =
        (.error e, ["❌ FAIL: " ++ title ++ " (duration " ++ dt ++ ")"]) ∧
      (stepTimerExit title dt d (some e)).2 = false) ∧
    (∀ a : α,
      runStepTimer title dt d (.ok a) =
        (.ok (some a), [rssLine d, "✅ DONE: " ++ title ++ " in " ++ dt])) := by
  constructor
  · intro e
    constructor
    · simp [runStepTimer, stepTimerExit]
    · simp [stepTimerExit]
  · intro a
    simp [runStepTimer, stepTimerExit]

/-- C5: in `load_or_parse_gse`, a cache-load exception, or a loaded object
whose sub-record collection is missing or empty, falls through to the parse
phase (the exception never propagates); and in the parse phase, a
`ValueError` from the filename-convention parse makes the result exactly
that of the explicit-identifier parse. -/
theorem c5_cache_miss_falls_through_and_filename_fallback :
    (∀ (env : ParseEnv) (e : String),
      env.cacheLoad = .error e → load_or_parse_gse env = parseGseFromSoft env) ∧
    (∀ (env : ParseEnv) (gse : GseObj),
      env.cacheLoad = .ok gse → (gse.gsms = none ∨ gse.gsms = some []) →
      load_or_parse_gse env = parseGseFromSoft env) ∧
    (∀ (env : ParseEnv) (m : String),
      env.byFilename = .error (.valueError m) → parseGseFromSoft env = env.byExplicit) := by
  refine ⟨?_, ?_, ?_⟩
  · intro env e h
    unfold load_or_parse_gse loadCachedGse
    rw [h]
  · intro env gse h hg
    unfold load_or_parse_gse loadCachedGse
    rw [h]
    rcases hg with hg | hg <;> simp [hg]
  · intro env m h
    unfold parseGseFromSoft
    rw [h]

/-- Witness for C5 at a concrete environment whose cache load raises and
whose filename parse raises `ValueError`. -/
theorem c5_cache_miss_falls_through_and_filename_fallback_witness :
    load_or_parse_gse ⟨.error "e", .error (.valueError "v"), .ok ⟨some [], none⟩⟩ =
      parseGseFromSoft ⟨.error "e", .error (.valueError "v"), .ok ⟨some [], none⟩⟩ ∧
    parseGseFromSoft ⟨.error "e", .error (.valueError "v"), .ok ⟨some [], none⟩⟩ =
      (⟨.error "e", .error (.valueError "v"), .ok ⟨some [], none⟩⟩ : ParseEnv).byExplicit :=
  ⟨c5_cache_miss_falls_through_and_filename_fallback.1 _ "e" rfl,
   c5_cache_miss_falls_through_and_filename_fallback.2.2 _ "v" rfl⟩

/-- C6 counterexample: the claim asserts `format_duration` yields the
rounded duration formatted as `H:MM:SS` for EVERY non-negative input, but at
86400 seconds the code prints the Python timedelta day label
`"1 day, 0:00:00"` rather than `"24:00:00"`. -/
theorem c6_day_boundary_counterexample :
    format_duration ((86400 : ℕ) : ℚ) = "1 day, 0:00:00" ∧
    hmmssOfSpec 86400 = "24:00:00" ∧
    format_duration ((86400 : ℕ) : ℚ) ≠ hmmssOfSpec (pyRound ((86400 : ℕ) : ℚ)).toNat := by
  rw [format_duration_natCast, pyRound_natCast]
  refine ⟨by decide, by decide, ?_⟩
  simp
  decide

/-- C6 amended: for every non-negative duration whose rounded value is below
one day (86400 s), `format_duration` yields the rounded whole-second
duration formatted as `H:MM:SS`; in particular 0 s gives `"0:00:00"` and
3661 s gives `"1:01:01"`.  (At one day and above, a `"N day(s), "` label
precedes the remainder-of-day part.) -/
theorem c6_format_duration_amended :
    (∀ s : ℚ, 0 ≤ s → (pyRound s).toNat < 86400 →
      format_duration s = hmmssOfSpec (pyRound s).toNat) ∧
    format_duration ((0 : ℕ) : ℚ) = "0:00:00" ∧
    format_duration ((3661 : ℕ) : ℚ) = "1:01:01" := by
  refine ⟨?_, ?_, ?_⟩
  · intro s _hs hlt
    unfold format_duration timedeltaStr hmmssOfSpec
    have h0 : (pyRound s).toNat / 86400 = 0 := Nat.div_eq_of_lt hlt
    have h1 : (pyRound s).toNat % 86400 = (pyRound s).toNat := Nat.mod_eq_of_lt hlt
    simp [h0, h1]
  · rw [format_duration_natCast]
    decide
  · rw [format_duration_natCast]
    decide

/-- Witness for C6 amended at 3661 seconds. -/
theorem c6_format_duration_amended_witness :
    (0 : ℚ) ≤ ((3661 : ℕ) : ℚ) ∧ (pyRound ((3661 : ℕ) : ℚ)).toNat < 86400 ∧
    format_duration ((3661 : ℕ) : ℚ) = hmmssOfSpec (pyRound ((3661 : ℕ) : ℚ)).toNat := by
  have hr : pyRound ((3661 : ℕ) : ℚ) = ((3661 : ℕ) : ℤ) := pyRound_natCast 3661
  refine ⟨by positivity, ?_, ?_⟩
  · rw [hr]
    decide
  · exact c6_format_duration_amended.1 ((3661 : ℕ) : ℚ) (by positivity) (by rw [hr]; decide)

/-- C7: `SystemMonitor.delta` is pure arithmetic — a total function of its
two snapshot arguments: memory and disk deltas are byte differences divided
by `1024 ** 2` (MB), the CPU field is the CPU percentage of the after snapshot;
and 100 MB before / 150 MB after of used memory yields a +50 MB delta. -/
theorem c7_delta_pure_arithmetic (b a : Snapshot) :
    (SystemMonitor.delta b a).rss_delta = (a.mem_used - b.mem_used) / 1024 ^ 2 ∧
    (SystemMonitor.delta b a).disk_delta = (a.disk_used - b.disk_used) / 1024 ^ 2 ∧
    (SystemMonitor.delta b a).cpu_after = a.cpu_percent ∧
    (b.mem_used = 100 * 1024 ^ 2 → a.mem_used = 150 * 1024 ^ 2 →
      (SystemMonitor.delta b a).rss_delta = 50) := by
  refine ⟨rfl, rfl, rfl, fun h1 h2 => ?_⟩
  simp [SystemMonitor.delta, h1, h2]
  norm_num

/-- Witness for C7 at concrete 100 MB / 150 MB snapshots. -/
theorem c7_delta_pure_arithmetic_witness :
    (⟨0, 100 * 1024 ^ 2, 0, 0, 0⟩ : Snapshot).mem_used = 100 * 1024 ^ 2 ∧
    (⟨0, 150 * 1024 ^ 2, 0, 0, 0⟩ : Snapshot).mem_used = 150 * 1024 ^ 2 ∧
    (SystemMonitor.delta ⟨0, 100 * 1024 ^ 2, 0, 0, 0⟩
      ⟨0, 150 * 1024 ^ 2, 0, 0, 0⟩).rss_delta = 50 :=
  ⟨rfl, rfl,
   (c7_delta_pure_arithmetic ⟨0, 100 * 1024 ^ 2, 0, 0, 0⟩
      ⟨0, 150 * 1024 ^ 2, 0, 0, 0⟩).2.2.2 rfl rfl⟩

/-- C8: `verify_gse_object` never raises — for every state of the cache file
(missing, raising on load, or loading an object with or without the expected
attributes) it returns normally with its log lines; a load failure shows up
as the logged failure line. -/
theorem c8_verify_gse_object_never_raises :
    (∀ (gsePath : String) (cache : Option (Except String GseObj)),
      ∃ logs, verify_gse_object gsePath cache = .ok logs) ∧
    (∀ (gsePath e : String),
      verify_gse_object gsePath (some (.error e)) =
        .ok ["🔍 Final verification of parsed GSE object",
             "✅ File exists: " ++ gsePath,
             "❌ Failed to load GSE object: " ++ e,
             "✅ Dataset inspection complete."]) ∧
    (∀ gsePath : String,
      verify_gse_object gsePath none =
        .ok ["🔍 Final verification of parsed GSE object",
             "❌ Parsed GSE object not found.",
             "✅ Dataset inspection complete."]) := by
  refine ⟨fun gsePath cache => ⟨_, rfl⟩, ?_, ?_⟩
  · intro gsePath e
    simp [verify_gse_object, verifyLoadedBody]
  · intro gsePath
    simp [verify_gse_object]

/-- C9: two entries of one metadata field that normalize to the same key
leave exactly one column for that key in the exported row, holding the
trimmed value of the LATER entry (Python dict assignment overwrites), while
the raw frequency tally still lists both entries separately. -/
theorem c9_duplicate_key_last_wins (sid i1 i2 field : String)
    (h1 : containsChar i1 ':' = true) (h2 : containsChar i2 ':' = true)
    (hk : normKey i1 = normKey i2) :
    (summarize_phenotypes [(sid, ⟨[(field, [i1, i2])]⟩)] field).1 = [i1, i2] ∧
    ∃ row, (summarize_phenotypes [(sid, ⟨[(field, [i1, i2])]⟩)] field).2 = [row] ∧
      (row.filter (fun p => p.1 = normKey i2)).length = 1 ∧
      lookupRow (normKey i2) row = some (normVal i2) := by
  constructor
  · simp [summarize_phenotypes]
  · refine ⟨buildPhenoRow sid (some [i1, i2]), ?_, ?_, ?_⟩
    · simp [summarize_phenotypes]
    · simp only [buildPhenoRow, List.isEmpty_cons, List.foldl, parsePhenoItem, h1, h2,
        if_true, hk]
      by_cases hks : normKey i2 = "sample_id"
      · simp [dictInsert, hks, lookupRow]
      · simp [dictInsert, hks, Ne.symm hks, lookupRow]
    · simp only [buildPhenoRow, List.isEmpty_cons, List.foldl, parsePhenoItem, h1, h2,
        if_true, hk]
      by_cases hks : normKey i2 = "sample_id"
      · simp [dictInsert, hks, lookupRow]
      · simp [dictInsert, hks, Ne.symm hks, lookupRow]

/-- Witness for C9 at the concrete entries `"Age: 45"` and `"age: 50"`. -/
theorem c9_duplicate_key_last_wins_witness :
    containsChar "Age: 45" ':' = true ∧
    containsChar "age: 50" ':' = true ∧
    normKey "Age: 45" = normKey "age: 50" ∧
    ((summarize_phenotypes [("GSM1", ⟨[("characteristics_ch1", ["Age: 45", "age: 50"])]⟩)]
        "characteristics_ch1").1 = ["Age: 45", "age: 50"] ∧
     ∃ row,
       (summarize_phenotypes [("GSM1", ⟨[("characteristics_ch1", ["Age: 45", "age: 50"])]⟩)]
          "characteristics_ch1").2 = [row] ∧
       (row.filter (fun p => p.1 = normKey "age: 50")).length = 1 ∧
       lookupRow (normKey "age: 50") row = some (normVal "age: 50")) :=
  ⟨by decide, by decide, by decide,
   c9_duplicate_key_last_wins "GSM1" "Age: 45" "age: 50" "characteristics_ch1"
     (by decide) (by decide) (by decide)⟩

/-- C10: `_merge_annotation_frames` does not mutate its arguments — on any
heap, the frames at the two argument addresses (index included) are exactly
what they were before the call: the function copies each frame and coerces
only the indices of the copies. -/
theorem c10_merge_does_not_mutate_arguments (h : Heap) (locId otherId : ℕ)
    (hl : locId < h.length) (ho : otherId < h.length) :
    (merge_annotation_frames h locId otherId).1[locId]? = h[locId]? ∧
    (merge_annotation_frames h locId otherId).1[otherId]? = h[otherId]? :=
  ⟨mergeFrames_pres h locId otherId locId hl,
   mergeFrames_pres h locId otherId otherId ho⟩

/-- Witness for C10 on a concrete two-frame heap. -/
theorem c10_merge_does_not_mutate_arguments_witness :
    (0 : ℕ) < ([⟨[.pint 1], [("chr", [.pstr "x"])]⟩,
                ⟨[.pint 1], [("grp", [.pstr "g"])]⟩] : Heap).length ∧
    (1 : ℕ) < ([⟨[.pint 1], [("chr", [.pstr "x"])]⟩,
                ⟨[.pint 1], [("grp", [.pstr "g"])]⟩] : Heap).length ∧
    ((merge_annotation_frames [⟨[.pint 1], [("chr", [.pstr "x"])]⟩,
        ⟨[.pint 1], [("grp", [.pstr "g"])]⟩] 0 1).1[0]? =
      ([⟨[.pint 1], [("chr", [.pstr "x"])]⟩,
        ⟨[.pint 1], [("grp", [.pstr "g"])]⟩] : Heap)[0]? ∧
     (merge_annotation_frames [⟨[.pint 1], [("chr", [.pstr "x"])]⟩,
        ⟨[.pint 1], [("grp", [.pstr "g"])]⟩] 0 1).1[1]? =
      ([⟨[.pint 1], [("chr", [.pstr "x"])]⟩,
        ⟨[.pint 1], [("grp", [.pstr "g"])]⟩] : Heap)[1]?) :=
  ⟨by decide, by decide,
   c10_merge_does_not_mutate_arguments
     [⟨[.pint 1], [("chr", [.pstr "x"])]⟩, ⟨[.pint 1], [("grp", [.pstr "g"])]⟩]
     0 1 (by decide) (by decide)⟩

end Epiclock
